import Mathlib

/-!
Verification of the LYRA conversational relay pipeline.

The development embeds, as plain Lean functions, the two program parts the
specification centres on:

* the Relay Service edge-function handler (`lyraChatHandler`), from the
  `Deno.serve` handler of the `lyra-chat` function: field validation,
  the shared-secret configuration gate, the outbound call to the n8n
  webhook, and the mapping of its outcome to the HTTP response; and

* the Conversation Controller (`sendMessage`, `loadChatHistory`), from the
  `Chat` component: the optimistic in-memory message list, the provisional
  entry, the relay call, the history-store write and the reconciliation of
  the provisional entry with the stored row or an error placeholder.

JavaScript strings are Lean `String`s; possibly-absent JSON fields are
`Option String`; the JS truthiness test `!s` on a string field is
"absent or empty".  Timestamps are `Nat` (only their order matters).
The effects of `sendMessage` (relay fetch, store insert) are supplied by an
environment value describing how each external call would resolve, and the
traces record which calls were issued.
-/

/-- One chat turn, after the `ChatMessage` interface of the client:
`{id, user_id, message, response, created_at, metadata}` where `response`
is `string | null` and `metadata` an opaque record (modelled as an
association list). -/
structure ChatMessage where
  id : String
  user_id : String
  message : String
  response : Option String
  created_at : Nat
  metadata : List (String × String)
deriving DecidableEq, Repr

/-- JavaScript `String.prototype.trim`: drop leading and trailing
whitespace characters. -/
def jsTrim (s : String) : String :=
  ⟨((s.data.dropWhile Char.isWhitespace).reverse.dropWhile
      Char.isWhitespace).reverse⟩

/-- The semantics of the JavaScript expression `o || d` on a JSON field
`o` holding a string or nothing: the default is taken when the field is
absent or the empty string (both falsy). -/
def orFalsy (o : Option String) (d : String) : String :=
  match o with
  | none => d
  | some s => if s = "" then d else s

/-! ## Relay Service (`lyra-chat` edge function) -/

/-- The parsed JSON body of a POST request: each field may be absent. -/
structure RelayRequest where
  message : Option String
  userId : Option String
deriving DecidableEq, Repr

/-- How the outbound `fetch` to the n8n webhook would resolve:
`ok rf` is a success status whose JSON body has `rf` as its `response`
field; `errorStatus` is a non-ok status (`!n8nResponse.ok`). -/
inductive UpstreamResult where
  | ok (responseField : Option String)
  | errorStatus
deriving DecidableEq, Repr

/-- The JSON body of a Relay Service response: either
`{error: e}` or `{success: b, response: r}`. -/
inductive RelayBody where
  | errorBody (error : String)
  | result (success : Bool) (response : String)
deriving DecidableEq, Repr

/-- The observable outcome of one handler invocation: HTTP status, JSON
body, and whether the outbound call to the external endpoint was issued. -/
structure HandlerResult where
  status : Nat
  body : RelayBody
  outboundCalled : Bool
deriving DecidableEq, Repr

def missingFieldsBody : RelayBody := .errorBody "Missing required fields"

def configErrorBody : RelayBody :=
  .result false "Service configuration error. Please contact support."

def relayFailureBody : RelayBody :=
  .result false "Failed to process your message. Please try again."

def placeholderReply : String := "Message received and processed"

/-- A string field is falsy for the `!message || !userId` test when it is
absent or empty. -/
def fieldFalsy (o : Option String) : Bool :=
  match o with
  | none => true
  | some s => s = ""

/-- The POST path of the `Deno.serve` handler of the `lyra-chat` function.
`token` is `WEBHOOK_AUTH_TOKEN` from the environment (absent when unset);
`upstream` is how the outbound `fetch` would resolve.  Field validation
(`!message || !userId`) comes first, then the configuration gate
(`!WEBHOOK_AUTH_TOKEN`, falsy also for an empty string), then the outbound
call; on upstream success the body's `response` field is taken with
`n8nData.response || "Message received and processed"`, and the success
`Response` carries no explicit status, hence 200. -/
def lyraChatHandler (req : RelayRequest) (token : Option String)
    (upstream : UpstreamResult) : HandlerResult :=
  if fieldFalsy req.message || fieldFalsy req.userId then
    { status := 400, body := missingFieldsBody, outboundCalled := false }
  else if fieldFalsy token then
    { status := 500, body := configErrorBody, outboundCalled := false }
  else
    match upstream with
    | .errorStatus =>
        { status := 502, body := relayFailureBody, outboundCalled := true }
    | .ok rf =>
        { status := 200, body := .result true (orFalsy rf placeholderReply),
          outboundCalled := true }

/-! ## Conversation Controller (`Chat` component) -/

def errorReply : String :=
  "Sorry, there was an error processing your message. Please try again."

def noResponseReceived : String := "No response received"

/-- The History Store's `chat_messages` table, as the list of its rows. -/
structure StoreState where
  rows : List ChatMessage
deriving DecidableEq, Repr

/-- Client-side controller state: the in-memory `messages` list, the
`inputMessage` field and the `loading` flag, for the session of `userId`. -/
structure ChatState where
  messages : List ChatMessage
  inputMessage : String
  loading : Bool
  userId : String
deriving DecidableEq, Repr

/-- How the relay round trip of `sendMessage` would resolve: `ok rf`
is an ok HTTP response whose parsed body has `rf` as its `response` field;
`fail` covers a thrown fetch error and `!response.ok`. -/
inductive RelayReply where
  | ok (responseField : Option String)
  | fail
deriving DecidableEq, Repr

/-- The environment of one `sendMessage` run: the client-generated UUID
and timestamp for the provisional entry, the relay outcome, whether the
store insert succeeds, and the id and timestamp the store would assign. -/
structure SendEnv where
  tempId : String
  now : Nat
  relay : RelayReply
  storeOk : Bool
  storeId : String
  storeNow : Nat
deriving DecidableEq, Repr

/-- Result of one `sendMessage` run: the new controller state, the new
store contents, and which external calls were issued. -/
structure SendResult where
  state : ChatState
  store : StoreState
  relayCalled : Bool
  storeCalled : Bool
deriving DecidableEq, Repr

/-- The provisional entry `tempMessage` built by `sendMessage`:
client UUID, the trimmed input as `message`, `response: null`, client
timestamp, empty metadata. -/
def tempMessage (st : ChatState) (env : SendEnv) : ChatMessage :=
  { id := env.tempId
    user_id := st.userId
    message := jsTrim st.inputMessage
    response := none
    created_at := env.now
    metadata := [] }

/-- The success-path list update of `sendMessage`:
`prev.filter((m) => m.id !== tempMessage.id)` followed by appending the
stored row — a keyed filter-and-append, not a positional splice. -/
def replaceTempWithSaved (msgs : List ChatMessage) (tempId : String)
    (saved : ChatMessage) : List ChatMessage :=
  msgs.filter (fun m => m.id ≠ tempId) ++ [saved]

/-- The row the store insert would return for this run: store id and
timestamp, the inserted `user_id`, `message` and `response`, and the
table's `'{}'::jsonb` metadata default. -/
def savedMessage (st : ChatState) (env : SendEnv)
    (assistantResponse : String) : ChatMessage :=
  { id := env.storeId
    user_id := st.userId
    message := jsTrim st.inputMessage
    response := some assistantResponse
    created_at := env.storeNow
    metadata := [] }

/-- `sendMessage` of the `Chat` component.  Guard: return unchanged when
the trimmed input is empty or `loading` is set.  Otherwise append the
provisional entry, call the relay; on ok take
`data.response || 'No response received'` and insert
`{user_id, message, response}` into `chat_messages`; on insert success
replace the provisional entry with the returned row, and in the catch
branch (relay failure or insert failure) replace it with
`{...tempMessage, response: <error string>}`.  `loading` is cleared and
the input field emptied in every non-guarded run. -/
def sendMessage (st : ChatState) (store : StoreState) (env : SendEnv) :
    SendResult :=
  if jsTrim st.inputMessage = "" || st.loading then
    { state := st, store := store, relayCalled := false, storeCalled := false }
  else
    let temp := tempMessage st env
    let appended := st.messages ++ [temp]
    match env.relay with
    | .fail =>
        { state :=
            { st with
              messages :=
                replaceTempWithSaved appended temp.id
                  { temp with response := some errorReply }
              inputMessage := ""
              loading := false }
          store := store
          relayCalled := true
          storeCalled := false }
    | .ok rf =>
        let assistantResponse := orFalsy rf noResponseReceived
        if env.storeOk then
          let saved := savedMessage st env assistantResponse
          { state :=
              { st with
                messages := replaceTempWithSaved appended temp.id saved
                inputMessage := ""
                loading := false }
            store := { rows := store.rows ++ [saved] }
            relayCalled := true
            storeCalled := true }
        else
          { state :=
              { st with
                messages :=
                  replaceTempWithSaved appended temp.id
                    { temp with response := some errorReply }
                inputMessage := ""
                loading := false }
            store := store
            relayCalled := true
            storeCalled := true }

/-- Insertion into a list kept ascending by `created_at`. -/
def insertByCreatedAt (m : ChatMessage) : List ChatMessage → List ChatMessage
  | [] => [m]
  | x :: xs =>
      if m.created_at < x.created_at then m :: x :: xs
      else x :: insertByCreatedAt m xs

/-- Sort a row list ascending by `created_at`. -/
def sortByCreatedAt : List ChatMessage → List ChatMessage
  | [] => []
  | x :: xs => insertByCreatedAt x (sortByCreatedAt xs)

/-- `loadChatHistory`: select the rows of `chat_messages` with
`user_id = owner`, ordered by `created_at` ascending. -/
def loadChatHistory (store : StoreState) (owner : String) :
    List ChatMessage :=
  sortByCreatedAt (store.rows.filter (fun r => r.user_id = owner))

/-! ## Helper lemmas -/

/-- Filtering out a temporary id leaves a list untouched when no element
carries that id. -/
theorem filter_ne_id_of_fresh (msgs : List ChatMessage) (tempId : String)
    (h : ∀ m ∈ msgs, m.id ≠ tempId) :
    msgs.filter (fun m => m.id ≠ tempId) = msgs := by
  induction msgs with
  | nil => rfl
  | cons x xs ih =>
      have hx : x.id ≠ tempId := h x (List.mem_cons_self x xs)
      simp only [List.filter_cons, decide_eq_true_eq]
      rw [if_pos hx, ih fun m hm => h m (List.mem_cons_of_mem x hm)]

/-- The success-path update applied to a list that ends with the
provisional entry and is otherwise free of its id: the entry at the last
position is replaced, every other entry keeps its position. -/
theorem replaceTempWithSaved_of_last (pre : List ChatMessage)
    (t saved : ChatMessage) (tempId : String) (ht : t.id = tempId)
    (hfresh : ∀ m ∈ pre, m.id ≠ tempId) :
    replaceTempWithSaved (pre ++ [t]) tempId saved = pre ++ [saved] := by
  unfold replaceTempWithSaved
  rw [List.filter_append, filter_ne_id_of_fresh pre tempId hfresh]
  simp [ht]

/-- Membership in an ordered insertion. -/
theorem mem_insertByCreatedAt (m x : ChatMessage) (l : List ChatMessage) :
    x ∈ insertByCreatedAt m l ↔ x = m ∨ x ∈ l := by
  induction l with
  | nil => simp [insertByCreatedAt]
  | cons y ys ih =>
      by_cases h : m.created_at < y.created_at
      · simp [insertByCreatedAt, h]
      · simp only [insertByCreatedAt, if_neg h, List.mem_cons, ih]
        tauto

/-- Sorting by creation time neither adds nor removes rows. -/
theorem mem_sortByCreatedAt (x : ChatMessage) (l : List ChatMessage) :
    x ∈ sortByCreatedAt l ↔ x ∈ l := by
  induction l with
  | nil => simp [sortByCreatedAt]
  | cons y ys ih =>
      simp only [sortByCreatedAt, mem_insertByCreatedAt, List.mem_cons, ih]

/-! ## Relay Service claims -/

/-- C6: a POST body with a missing or empty `message` or `userId` is
answered with status 400 and `{error: "Missing required fields"}`, and the
outbound call to the external endpoint is never issued, whatever the token
configuration and however the upstream would have answered. -/
theorem relay_missing_fields_400 (req : RelayRequest) (token : Option String)
    (upstream : UpstreamResult)
    (h : fieldFalsy req.message = true ∨ fieldFalsy req.userId = true) :
    lyraChatHandler req token upstream =
      { status := 400, body := missingFieldsBody, outboundCalled := false } := by
  unfold lyraChatHandler
  rcases h with h | h <;> simp [h]

theorem relay_missing_fields_400_witness :
    (fieldFalsy (some "") = true ∨ fieldFalsy (some "u") = true) ∧
    lyraChatHandler ⟨some "", some "u"⟩ (some "tok") (.ok (some "r")) =
      { status := 400, body := missingFieldsBody, outboundCalled := false } :=
  ⟨Or.inl (by decide),
    relay_missing_fields_400 ⟨some "", some "u"⟩ (some "tok") (.ok (some "r"))
      (Or.inl (by decide))⟩

/-- C5: for a well-formed POST body (both fields present and non-empty),
an absent `WEBHOOK_AUTH_TOKEN` makes the handler fail closed: status 500
with the configuration-error body, and the outbound call is never issued,
however the upstream would have answered. -/
theorem relay_config_error_fails_closed (m u : String)
    (upstream : UpstreamResult) (hm : m ≠ "") (hu : u ≠ "") :
    lyraChatHandler ⟨some m, some u⟩ none upstream =
      { status := 500, body := configErrorBody, outboundCalled := false } := by
  unfold lyraChatHandler
  simp [fieldFalsy, hm, hu]

theorem relay_config_error_fails_closed_witness :
    ("hello" ≠ "" ∧ "user-1" ≠ "") ∧
    lyraChatHandler ⟨some "hello", some "user-1"⟩ none (.ok (some "r")) =
      { status := 500, body := configErrorBody, outboundCalled := false } :=
  ⟨⟨by decide, by decide⟩,
    relay_config_error_fails_closed "hello" "user-1" (.ok (some "r"))
      (by decide) (by decide)⟩

/-- C7: for a well-formed POST body with the token configured, an upstream
success yields status 200 and `{success: true, response: r}` where `r` is
never empty: it is the upstream body's `response` field when that field is
a non-empty string, and the fixed placeholder when the field is absent. -/
theorem relay_success_response (m u t : String) (rf : Option String)
    (hm : m ≠ "") (hu : u ≠ "") (ht : t ≠ "") :
    ∃ r, lyraChatHandler ⟨some m, some u⟩ (some t) (.ok rf) =
        { status := 200, body := RelayBody.result true r,
          outboundCalled := true } ∧
      r ≠ "" ∧
      (∀ s, rf = some s → s ≠ "" → r = s) ∧
      (rf = none → r = placeholderReply) := by
  refine ⟨orFalsy rf placeholderReply, ?_, ?_, ?_, ?_⟩
  · unfold lyraChatHandler
    simp [fieldFalsy, hm, hu, ht]
  · cases rf with
    | none => simp [orFalsy, placeholderReply]
    | some s =>
        by_cases hs : s = "" <;> simp [orFalsy, hs, placeholderReply]
  · intro s hs hsne
    simp [orFalsy, hs, hsne]
  · intro hnone
    simp [orFalsy, hnone]

theorem relay_success_response_witness :
    ("hello" ≠ "" ∧ "user-1" ≠ "" ∧ "tok" ≠ "") ∧
    ∃ r, lyraChatHandler ⟨some "hello", some "user-1"⟩ (some "tok")
          (.ok (some "Hi there")) =
        { status := 200, body := RelayBody.result true r,
          outboundCalled := true } ∧
      r ≠ "" ∧
      (∀ s, some "Hi there" = some s → s ≠ "" → r = s) ∧
      ((some "Hi there" : Option String) = none → r = placeholderReply) :=
  ⟨⟨by decide, by decide, by decide⟩,
    relay_success_response "hello" "user-1" "tok" (some "Hi there")
      (by decide) (by decide) (by decide)⟩

/-- C10: validation precedes the configuration gate: a POST body with a
missing or empty field is answered 400 with the missing-fields body even
when the shared secret is unconfigured, so the configuration-error outcome
is unreachable for malformed requests. -/
theorem relay_validation_before_config (req : RelayRequest)
    (upstream : UpstreamResult)
    (h : fieldFalsy req.message = true ∨ fieldFalsy req.userId = true) :
    lyraChatHandler req none upstream =
      { status := 400, body := missingFieldsBody, outboundCalled := false } := by
  unfold lyraChatHandler
  rcases h with h | h <;> simp [h]

theorem relay_validation_before_config_witness :
    (fieldFalsy none = true ∨ fieldFalsy (some "u") = true) ∧
    lyraChatHandler ⟨none, some "u"⟩ none .errorStatus =
      { status := 400, body := missingFieldsBody, outboundCalled := false } :=
  ⟨Or.inl (by decide),
    relay_validation_before_config ⟨none, some "u"⟩ .errorStatus
      (Or.inl (by decide))⟩

/-! ## Conversation Controller: branch equations -/

/-- On a non-guarded run whose relay call or store insert fails,
`sendMessage` performs the catch-branch update and leaves the store
untouched. -/
theorem sendMessage_fail_spec (st : ChatState) (store : StoreState)
    (env : SendEnv) (hne : jsTrim st.inputMessage ≠ "")
    (hl : st.loading = false)
    (hfail : env.relay = RelayReply.fail ∨ env.storeOk = false) :
    (sendMessage st store env).state.messages =
      replaceTempWithSaved (st.messages ++ [tempMessage st env]) env.tempId
        { tempMessage st env with response := some errorReply } ∧
    (sendMessage st store env).store = store := by
  cases hrel : env.relay with
  | fail => constructor <;> simp [sendMessage, hne, hl, hrel, tempMessage]
  | ok rf =>
      have hst : env.storeOk = false := by
        rcases hfail with h | h
        · rw [hrel] at h; cases h
        · exact h
      constructor <;> simp [sendMessage, hne, hl, hrel, hst, tempMessage]

/-- Failure catch branch with a fresh temporary id: the list becomes the
old list plus the error placeholder, and the store is unchanged. -/
theorem sendMessage_fail_messages (st : ChatState) (store : StoreState)
    (env : SendEnv) (hne : jsTrim st.inputMessage ≠ "")
    (hl : st.loading = false)
    (hfresh : ∀ m ∈ st.messages, m.id ≠ env.tempId)
    (hfail : env.relay = RelayReply.fail ∨ env.storeOk = false) :
    (sendMessage st store env).state.messages =
      st.messages ++ [{ tempMessage st env with response := some errorReply }] ∧
    (sendMessage st store env).store = store := by
  obtain ⟨h1, h2⟩ := sendMessage_fail_spec st store env hne hl hfail
  refine ⟨?_, h2⟩
  rw [h1, replaceTempWithSaved_of_last st.messages (tempMessage st env) _
    env.tempId rfl hfresh]

/-- On a non-guarded run whose relay call and store insert succeed,
`sendMessage` performs the success update and appends the stored row to
the store. -/
theorem sendMessage_success_spec (st : ChatState) (store : StoreState)
    (env : SendEnv) (rf : Option String)
    (hne : jsTrim st.inputMessage ≠ "") (hl : st.loading = false)
    (hrel : env.relay = RelayReply.ok rf) (hstore : env.storeOk = true) :
    (sendMessage st store env).state.messages =
      replaceTempWithSaved (st.messages ++ [tempMessage st env]) env.tempId
        (savedMessage st env (orFalsy rf noResponseReceived)) ∧
    (sendMessage st store env).store.rows =
      store.rows ++ [savedMessage st env (orFalsy rf noResponseReceived)] := by
  constructor <;> simp [sendMessage, hne, hl, hrel, hstore, tempMessage]

/-- No entry of a list matches the count predicate for an id absent from
the list. -/
theorem countP_id_eq_zero (msgs : List ChatMessage) (tempId : String)
    (h : ∀ m ∈ msgs, m.id ≠ tempId) :
    List.countP (fun m => m.id == tempId) msgs = 0 := by
  induction msgs with
  | nil => rfl
  | cons x xs ih =>
      rw [List.countP_cons]
      have hx : (x.id == tempId) = false := by
        simp [h x (List.mem_cons_self x xs)]
      simp [hx, ih fun m hm => h m (List.mem_cons_of_mem x hm)]

/-! ## Conversation Controller claims -/

def cexTemp : ChatMessage :=
  { id := "temp-1", user_id := "u", message := "hi", response := none,
    created_at := 1, metadata := [] }

def cexOther : ChatMessage :=
  { id := "row-9", user_id := "u", message := "earlier", response := some "r",
    created_at := 0, metadata := [] }

def cexSaved : ChatMessage :=
  { id := "row-10", user_id := "u", message := "hi", response := some "Hi!",
    created_at := 2, metadata := [] }

/-- C1 counterexample: with the provisional entry at position 0 and
another entry after it (as a concurrent reload can produce), the
success-path update of `sendMessage` puts the store-assigned entry at the
end of the list, not at position 0 — the replacement is not
index-preserving. -/
theorem reconciliation_not_index_preserving :
    [cexTemp, cexOther].get? 0 = some cexTemp ∧
    (replaceTempWithSaved [cexTemp, cexOther] cexTemp.id cexSaved).get? 0 ≠
      some cexSaved ∧
    replaceTempWithSaved [cexTemp, cexOther] cexTemp.id cexSaved =
      [cexOther, cexSaved] := by decide

/-- C1 (amended): the success-path update removes every entry carrying the
temporary id and appends the store-assigned entry at the end; when the
provisional entry is the last element of the list and its id occurs
nowhere else, every entry keeps its position and the provisional entry's
position is taken by the store-assigned one. -/
theorem reconciliation_keyed_replacement (msgs pre : List ChatMessage)
    (t saved : ChatMessage) (tempId : String)
    (hmsgs : msgs = pre ++ [t]) (ht : t.id = tempId)
    (hfresh : ∀ m ∈ pre, m.id ≠ tempId) :
    replaceTempWithSaved msgs tempId saved = pre ++ [saved] := by
  rw [hmsgs]
  exact replaceTempWithSaved_of_last pre t saved tempId ht hfresh

theorem reconciliation_keyed_replacement_witness :
    (([cexOther, cexTemp] : List ChatMessage) = [cexOther] ++ [cexTemp] ∧
      cexTemp.id = "temp-1" ∧
      (∀ m ∈ [cexOther], m.id ≠ "temp-1")) ∧
    replaceTempWithSaved [cexOther, cexTemp] "temp-1" cexSaved =
      [cexOther] ++ [cexSaved] :=
  ⟨⟨by decide, by decide, by decide⟩,
    reconciliation_keyed_replacement [cexOther, cexTemp] [cexOther] cexTemp
      cexSaved "temp-1" (by decide) (by decide) (by decide)⟩

/-- C2: a non-guarded `sendMessage` run (non-empty trimmed prompt, no
pending submission) with a fresh temporary id and a distinct store id
results, once resolved, in exactly one entry added at the end of the list
— the rest unchanged — and the list never holds two entries with the
temporary id. -/
theorem submit_exactly_one_exchange (st : ChatState) (store : StoreState)
    (env : SendEnv) (hne : jsTrim st.inputMessage ≠ "")
    (hl : st.loading = false)
    (hfresh : ∀ m ∈ st.messages, m.id ≠ env.tempId)
    (hsid : env.storeId ≠ env.tempId) :
    (∃ resolved, (sendMessage st store env).state.messages =
      st.messages ++ [resolved]) ∧
    List.countP (fun m => m.id == env.tempId)
      (sendMessage st store env).state.messages ≤ 1 := by
  cases hrel : env.relay with
  | ok rf =>
      cases hstore : env.storeOk with
      | true =>
          obtain ⟨h1, _⟩ :=
            sendMessage_success_spec st store env rf hne hl hrel hstore
          rw [h1, replaceTempWithSaved_of_last st.messages (tempMessage st env)
            _ env.tempId rfl hfresh]
          refine ⟨⟨_, rfl⟩, ?_⟩
          rw [List.countP_append, countP_id_eq_zero st.messages env.tempId hfresh]
          simp [List.countP_cons, savedMessage, hsid]
      | false =>
          obtain ⟨h1, _⟩ := sendMessage_fail_messages st store env hne hl hfresh
            (Or.inr hstore)
          rw [h1]
          refine ⟨⟨_, rfl⟩, ?_⟩
          rw [List.countP_append, countP_id_eq_zero st.messages env.tempId hfresh]
          simp [List.countP_cons, tempMessage]
  | fail =>
      obtain ⟨h1, _⟩ := sendMessage_fail_messages st store env hne hl hfresh
        (Or.inl hrel)
      rw [h1]
      refine ⟨⟨_, rfl⟩, ?_⟩
      rw [List.countP_append, countP_id_eq_zero st.messages env.tempId hfresh]
      simp [List.countP_cons, tempMessage]

def wSt : ChatState :=
  { messages := [], inputMessage := "hi", loading := false, userId := "u" }

def wStPending : ChatState :=
  { messages := [], inputMessage := "hi", loading := true, userId := "u" }

def wEnvOk : SendEnv :=
  { tempId := "temp-1", now := 1, relay := .ok (some "Hi!"), storeOk := true,
    storeId := "row-10", storeNow := 2 }

def wEnvFail : SendEnv :=
  { tempId := "temp-1", now := 1, relay := .fail, storeOk := true,
    storeId := "row-10", storeNow := 2 }

theorem submit_exactly_one_exchange_witness :
    (jsTrim wSt.inputMessage ≠ "" ∧ wSt.loading = false ∧
      (∀ m ∈ wSt.messages, m.id ≠ wEnvOk.tempId) ∧
      wEnvOk.storeId ≠ wEnvOk.tempId) ∧
    ((∃ resolved, (sendMessage wSt ⟨[]⟩ wEnvOk).state.messages =
        wSt.messages ++ [resolved]) ∧
      List.countP (fun m => m.id == wEnvOk.tempId)
        (sendMessage wSt ⟨[]⟩ wEnvOk).state.messages ≤ 1) :=
  ⟨⟨by decide, by decide, by decide, by decide⟩,
    submit_exactly_one_exchange wSt ⟨[]⟩ wEnvOk (by decide) (by decide)
      (by decide) (by decide)⟩

/-- C3: while a submission is pending (`loading` set), a further
`sendMessage` call is a no-op: the state and the store are unchanged and
neither the relay nor the store is called. -/
theorem submit_rejected_while_pending (st : ChatState) (store : StoreState)
    (env : SendEnv) (h : st.loading = true) :
    sendMessage st store env =
      { state := st, store := store, relayCalled := false,
        storeCalled := false } := by
  simp [sendMessage, h]

theorem submit_rejected_while_pending_witness :
    wStPending.loading = true ∧
    sendMessage wStPending ⟨[]⟩ wEnvOk =
      { state := wStPending, store := ⟨[]⟩, relayCalled := false,
        storeCalled := false } :=
  ⟨by decide, submit_rejected_while_pending wStPending ⟨[]⟩ wEnvOk (by decide)⟩

/-- C4: when the relay call fails or the store insert fails, the run ends
with the provisional entry replaced by a copy whose `reply` is the fixed
error string, and nothing is written to the History Store. -/
theorem submit_failure_not_persisted (st : ChatState) (store : StoreState)
    (env : SendEnv) (hne : jsTrim st.inputMessage ≠ "")
    (hl : st.loading = false)
    (hfresh : ∀ m ∈ st.messages, m.id ≠ env.tempId)
    (hfail : env.relay = RelayReply.fail ∨ env.storeOk = false) :
    (sendMessage st store env).state.messages =
      st.messages ++ [{ tempMessage st env with response := some errorReply }] ∧
    (sendMessage st store env).store.rows = store.rows := by
  obtain ⟨h1, h2⟩ := sendMessage_fail_messages st store env hne hl hfresh hfail
  exact ⟨h1, congrArg StoreState.rows h2⟩

theorem submit_failure_not_persisted_witness :
    (jsTrim wSt.inputMessage ≠ "" ∧ wSt.loading = false ∧
      (∀ m ∈ wSt.messages, m.id ≠ wEnvFail.tempId) ∧
      (wEnvFail.relay = RelayReply.fail ∨ wEnvFail.storeOk = false)) ∧
    ((sendMessage wSt ⟨[]⟩ wEnvFail).state.messages =
      wSt.messages ++
        [{ tempMessage wSt wEnvFail with response := some errorReply }] ∧
    (sendMessage wSt ⟨[]⟩ wEnvFail).store.rows = ([] : List ChatMessage)) :=
  ⟨⟨by decide, by decide, by decide, Or.inl (by decide)⟩,
    submit_failure_not_persisted wSt ⟨[]⟩ wEnvFail (by decide) (by decide)
      (by decide) (Or.inl (by decide))⟩

/-- C9: on the failure path the error placeholder keeps every field of the
provisional entry — temporary id, owner, trimmed prompt, client timestamp
and metadata — and only the `reply` is set, to the fixed error string. -/
theorem submit_failure_preserves_fields (st : ChatState) (store : StoreState)
    (env : SendEnv) (hne : jsTrim st.inputMessage ≠ "")
    (hl : st.loading = false)
    (hfresh : ∀ m ∈ st.messages, m.id ≠ env.tempId)
    (hfail : env.relay = RelayReply.fail ∨ env.storeOk = false) :
    ∃ e, (sendMessage st store env).state.messages = st.messages ++ [e] ∧
      e.id = env.tempId ∧ e.user_id = st.userId ∧
      e.message = jsTrim st.inputMessage ∧ e.created_at = env.now ∧
      e.metadata = (tempMessage st env).metadata ∧
      e.response = some errorReply := by
  obtain ⟨h1, _⟩ := sendMessage_fail_messages st store env hne hl hfresh hfail
  exact ⟨_, h1, rfl, rfl, rfl, rfl, rfl, rfl⟩

theorem submit_failure_preserves_fields_witness :
    (jsTrim wSt.inputMessage ≠ "" ∧ wSt.loading = false ∧
      (∀ m ∈ wSt.messages, m.id ≠ wEnvFail.tempId) ∧
      (wEnvFail.relay = RelayReply.fail ∨ wEnvFail.storeOk = false)) ∧
    (∃ e, (sendMessage wSt ⟨[]⟩ wEnvFail).state.messages =
        wSt.messages ++ [e] ∧
      e.id = wEnvFail.tempId ∧ e.user_id = wSt.userId ∧
      e.message = jsTrim wSt.inputMessage ∧ e.created_at = wEnvFail.now ∧
      e.metadata = (tempMessage wSt wEnvFail).metadata ∧
      e.response = some errorReply) :=
  ⟨⟨by decide, by decide, by decide, Or.inl (by decide)⟩,
    submit_failure_preserves_fields wSt ⟨[]⟩ wEnvFail (by decide) (by decide)
      (by decide) (Or.inl (by decide))⟩

/-- C8: round trip — the row persisted by a successful `sendMessage` run
is found by a subsequent `loadChatHistory` for the same owner, with
`message` the trimmed prompt that was written and `response` the reply
that was written. -/
theorem submit_loadHistory_roundtrip (st : ChatState) (store : StoreState)
    (env : SendEnv) (rf : Option String)
    (hne : jsTrim st.inputMessage ≠ "") (hl : st.loading = false)
    (hrel : env.relay = RelayReply.ok rf) (hstore : env.storeOk = true) :
    savedMessage st env (orFalsy rf noResponseReceived) ∈
      loadChatHistory (sendMessage st store env).store st.userId ∧
    (savedMessage st env (orFalsy rf noResponseReceived)).message =
      jsTrim st.inputMessage ∧
    (savedMessage st env (orFalsy rf noResponseReceived)).response =
      some (orFalsy rf noResponseReceived) := by
  obtain ⟨_, h2⟩ := sendMessage_success_spec st store env rf hne hl hrel hstore
  refine ⟨?_, rfl, rfl⟩
  unfold loadChatHistory
  rw [mem_sortByCreatedAt, h2]
  simp [List.mem_filter, savedMessage]

theorem submit_loadHistory_roundtrip_witness :
    (jsTrim wSt.inputMessage ≠ "" ∧ wSt.loading = false ∧
      wEnvOk.relay = RelayReply.ok (some "Hi!") ∧ wEnvOk.storeOk = true) ∧
    (savedMessage wSt wEnvOk (orFalsy (some "Hi!") noResponseReceived) ∈
      loadChatHistory (sendMessage wSt ⟨[]⟩ wEnvOk).store wSt.userId ∧
    (savedMessage wSt wEnvOk (orFalsy (some "Hi!") noResponseReceived)).message =
      jsTrim wSt.inputMessage ∧
    (savedMessage wSt wEnvOk (orFalsy (some "Hi!") noResponseReceived)).response =
      some (orFalsy (some "Hi!") noResponseReceived)) :=
  ⟨⟨by decide, by decide, by decide, by decide⟩,
    submit_loadHistory_roundtrip wSt ⟨[]⟩ wEnvOk (some "Hi!") (by decide)
      (by decide) (by decide) (by decide)⟩
